import Mathlib

/-!
# Verification of the exoplanet-ai backend inference core

Shallow embedding of the feature-extraction pipeline
(`src/backend/app/features/bls.py`), the artifact loader
(`src/backend/app/models/loader.py`), the inference service
(`src/backend/app/models/infer.py`), the light-curve store
(`src/backend/app/dataaccess/lc_store.py`) and the HTTP boundary
(`src/backend/app/main.py`).

Conventions:
* Python floats are modelled by `FVal`: either a finite rational or one of
  the non-finite sentinels `nan`, `inf`, `ninf`.  Arithmetic that the code
  performs only on finite data is carried out on `ℚ`.
* `np.std` takes a real square root; the embedding is parametric in a
  function `sqrtFn : ℚ → ℚ` standing for that irrational primitive (no
  claim below depends on its values).
* The external `astropy` BoxLeastSquares search is, per the spec, a
  deterministic external function with a fixed numeric contract; it is
  modelled by the parameter type `BLSEngine`.
* Fallible Python code is modelled with `Except`, one error constructor
  per Python exception class that the callers distinguish.
-/

namespace ExoplanetAI

/-- A Python float value: a finite rational, NaN, +inf or -inf. -/
inductive FVal where
  | fin (q : ℚ)
  | nan
  | inf
  | ninf
  deriving DecidableEq, Repr

namespace FVal

/-- `math.isnan` / `np.isnan`. -/
def isNan : FVal → Bool
  | nan => true
  | _ => false

/-- `math.isinf` / `np.isinf` (true for both infinities). -/
def isInf : FVal → Bool
  | inf => true
  | ninf => true
  | _ => false

/-- `np.isfinite`. -/
def isFinite : FVal → Bool
  | fin _ => true
  | _ => false

/-- `pd.isna` on a float: true exactly for NaN (infinities are NOT na). -/
def pdIsna : FVal → Bool
  | nan => true
  | _ => false

/-- The rational value of a finite float (junk value 0 on non-finite
inputs; only ever applied after a finiteness filter). -/
def toRat : FVal → ℚ
  | fin q => q
  | _ => 0

/-- Float addition restricted to the shapes the code uses. -/
def add : FVal → FVal → FVal
  | fin q, fin r => fin (q + r)
  | nan, _ => nan
  | _, nan => nan
  | inf, ninf => nan
  | ninf, inf => nan
  | inf, _ => inf
  | _, inf => inf
  | ninf, _ => ninf
  | _, ninf => ninf

end FVal

/-- `np.clip(x, 0.0, 1.0)`: NaN propagates, infinities clamp to the bounds. -/
def clip01 : FVal → FVal
  | .fin q => .fin (max 0 (min 1 q))
  | .nan => .nan
  | .inf => .fin 1
  | .ninf => .fin 0

/-!
## InferenceService output serialization (`infer.py` lines 256-274)
-/

/-- `InferenceService._serialize_series`: map `pd.isna` entries of the
feature series to the null sentinel, keep every other float as-is. -/
def serialize_series (series : List (String × FVal)) : List (String × Option FVal) :=
  series.map fun kv => (kv.1, if kv.2.pdIsna then none else some kv.2)

/-- `InferenceService._serialize_summary`: map `None`, NaN and infinite
summary entries to the null sentinel, keep every other float as-is. -/
def serialize_summary (summary : List (String × Option FVal)) :
    List (String × Option FVal) :=
  summary.map fun kv =>
    (kv.1,
      match kv.2 with
      | none => none
      | some v => if v.isNan || v.isInf then none else some v)

/-!
## Artifact state and the scoring path (`infer.py` lines 176-254)

The model, scaler and calibrator objects are opaque handles; the scoring
path observes them only through the calls it makes, so they are embedded
as the corresponding functions: `decision_function(...)[0]`,
`model.predict(dmatrix)[0]` and `calibrator.predict_proba(...)[0, 1]`.
-/

/-- The artifact mode tag (`loader.Mode`). -/
inductive Mode where
  | one_class
  | supervised
  deriving DecidableEq, Repr

/-- The loaded artifact state dictionary built by `loader.load_state` as
consumed by `InferenceService._score` and `refresh`. -/
structure ArtifactState where
  mode : Mode
  feature_names : List String
  /-- `state['model'].decision_function(X)[0]` in one-class mode. -/
  decisionFunction : List FVal → FVal
  /-- `state['model'].predict(DMatrix(X))[0]` in supervised mode. -/
  boosterPredict : List FVal → FVal
  /-- `state['scaler'].transform` when a scaler was loaded. -/
  scaler : Option (List FVal → List FVal)
  /-- `state['calibrator'].predict_proba(X)[0, 1]` when a calibrator was loaded. -/
  calibrator : Option (List FVal → FVal)
  /-- whether `state['xgb']` is a loaded module (not `None`). -/
  xgbAvailable : Bool
  latest : String
  feature_names_version : String
  latest_mtime : ℚ

/-- `features.reindex(state['feature_names'])` followed by `astype(float)`:
one value per canonical name, missing names becoming NaN. -/
def reindexFeatures (features : List (String × FVal)) (names : List String) :
    List FVal :=
  names.map fun n => ((features.lookup n).getD FVal.nan)

/-- `scaler.transform(X)` when present, else `X` unchanged. -/
def applyScaler (scaler : Option (List FVal → List FVal)) (X : List FVal) :
    List FVal :=
  match scaler with
  | some s => s X
  | none => X

/-- The response dictionary assembled by `InferenceService._score`
(the `runtime_ms` wall-clock entry is environmental and not modelled). -/
structure PredictResponse where
  tic_id : Option Int
  mode : Mode
  is_probability : Bool
  score : FVal
  summary : List (String × Option FVal)
  features : List (String × Option FVal)
  warnings : List String
  meta_cache_hit : Option Bool
  meta_auto_fetch : Bool
  lightcurve : Option (List (String × List FVal))
  deriving DecidableEq, Repr

/-- Errors escaping `_score` (`RuntimeError` when supervised mode has no
xgboost module loaded). -/
inductive ScoreError where
  | runtimeError (msg : String)
  deriving DecidableEq, Repr

/-- `InferenceService._score`: align the feature vector to the canonical
order, optionally scale, branch on mode, clip, serialize payloads. -/
def score_run (state : ArtifactState) (features : List (String × FVal))
    (summary : List (String × Option FVal)) (warnings : List String)
    (tic_id : Option Int) (cache_hit : Option Bool) (auto_fetch : Bool)
    (lightcurve : Option (List (String × List FVal))) :
    Except ScoreError PredictResponse :=
  let X := reindexFeatures features state.feature_names
  let X_model := applyScaler state.scaler X
  match state.mode with
  | .one_class =>
      let raw_score := state.decisionFunction X_model
      let score := clip01 (raw_score.add (.fin (1 / 2)))
      .ok
        { tic_id := tic_id
          mode := state.mode
          is_probability := false
          score := score
          summary := serialize_summary summary
          features := serialize_series features
          warnings := warnings
          meta_cache_hit := cache_hit
          meta_auto_fetch := auto_fetch
          lightcurve := lightcurve }
  | .supervised =>
      if state.xgbAvailable = false then
        .error (.runtimeError "XGBoost module not loaded for supervised mode")
      else
        let base_score := state.boosterPredict X_model
        let base_score :=
          match state.calibrator with
          | some c => c X_model
          | none => base_score
        let score := clip01 base_score
        .ok
          { tic_id := tic_id
            mode := state.mode
            is_probability := true
            score := score
            summary := serialize_summary summary
            features := serialize_series features
            warnings := warnings
            meta_cache_hit := cache_hit
            meta_auto_fetch := auto_fetch
            lightcurve := lightcurve }

/-!
## Hot-reload policy (`infer.py` lines 41-50)

`refresh` is modelled over the observations it makes of the filesystem:
whether `latest.txt` exists, its current mtime, and the state
`loader.load_state` would build now.  The returned Boolean records whether
a full artifact load was performed.
-/

/-- The reload condition of `InferenceService.refresh`:
`force or self._state is None or current_mtime > self._state.get('latest_mtime', 0.0)`. -/
def refresh_reloads (force : Bool) (cached : Option ArtifactState)
    (current_mtime : ℚ) : Bool :=
  force || cached.isNone ||
    decide (current_mtime > ((cached.map (·.latest_mtime)).getD 0))

/-- `InferenceService.refresh`: raise when the pointer file is missing,
otherwise reload exactly when `refresh_reloads` holds. -/
def refresh (latestExists : Bool) (force : Bool)
    (cached : Option ArtifactState) (current_mtime : ℚ)
    (load_result : ArtifactState) : Except String (Bool × ArtifactState) :=
  if latestExists = false then
    .error "latest.txt not found"
  else if refresh_reloads force cached current_mtime then
    .ok (true, load_result)
  else
    .ok (false, cached.getD load_result)

/-!
## Feature extraction (`features/bls.py`)
-/

/-- `bls.MIN_SAMPLES`. -/
def MIN_SAMPLES : ℕ := 200

/-- `bls.META_FEATURE_KEYS`. -/
def META_FEATURE_KEYS : List String :=
  ["tmag", "teff", "rad", "crowdsap", "contratio"]

/-- Insert into a list sorted by a rational key (helper for `sort_by`). -/
def insert_by {α : Type} (key : α → ℚ) (x : α) : List α → List α
  | [] => [x]
  | y :: ys => if key x ≤ key y then x :: y :: ys else y :: insert_by key x ys

/-- Stable insertion sort by a rational key (embeds `np.argsort`-driven
reordering of parallel arrays and the sorting inside `np.median`). -/
def sort_by {α : Type} (key : α → ℚ) : List α → List α
  | [] => []
  | x :: xs => insert_by key x (sort_by key xs)

/-- `np.median`: middle element of the sorted list, or the mean of the two
middle elements for even length (0 on the empty list, which the pipeline
never reaches). -/
def median (xs : List ℚ) : ℚ :=
  let s := sort_by id xs
  let n := xs.length
  if n = 0 then 0
  else if n % 2 = 1 then s.getD (n / 2) 0
  else (s.getD (n / 2 - 1) 0 + s.getD (n / 2) 0) / 2

/-- `bls._mad`: median absolute deviation from the median. -/
def mad (values : List ℚ) : ℚ :=
  median (values.map fun v => |v - median values|)

/-- Keep the entries of a parallel list selected by a Boolean mask
(elementwise `arr[mask]` on parallel numpy arrays). -/
def mask_filter {α : Type} (mask : List Bool) (xs : List α) : List α :=
  (mask.zip xs).filterMap fun p => if p.1 then some p.2 else none

/-- `bls._five_sigma_clip`: no-op with kept fraction 1.0 when the MAD is
zero, otherwise keep exactly the samples within `5 * 1.4826 * MAD` of the
median and report the kept fraction. -/
def five_sigma_clip (time flux : List ℚ) (flux_err : Option (List ℚ)) :
    List ℚ × List ℚ × Option (List ℚ) × ℚ :=
  let med := median flux
  let m := mad flux
  if m = 0 then (time, flux, flux_err, 1)
  else
    let threshold : ℚ := 5 * (14826 / 10000) * m
    let mask := flux.map fun x => decide (|x - med| ≤ threshold)
    (mask_filter mask time, mask_filter mask flux,
      flux_err.map (mask_filter mask),
      ((mask.count true : ℚ) / (flux.length : ℚ)))

/-- The finite-sample filter of `build_bls_features` (lines 79-85): keep
exactly the indices where time, flux and (when given) flux_err are all
finite, and pass to rational arithmetic. -/
def finite_filter (time flux : List FVal) (flux_err : Option (List FVal)) :
    List ℚ × List ℚ × Option (List ℚ) :=
  match flux_err with
  | none =>
      let kept := (time.zip flux).filter fun p => p.1.isFinite && p.2.isFinite
      (kept.map (fun p => p.1.toRat), kept.map (fun p => p.2.toRat), none)
  | some errs =>
      let kept := ((time.zip flux).zip errs).filter fun p =>
        p.1.1.isFinite && p.1.2.isFinite && p.2.isFinite
      (kept.map (fun p => p.1.1.toRat), kept.map (fun p => p.1.2.toRat),
        some (kept.map (fun p => p.2.toRat)))

/-- The `np.argsort(time_arr)` reordering of the parallel arrays
(lines 90-94). -/
def sort_by_time (time flux : List ℚ) (flux_err : Option (List ℚ)) :
    List ℚ × List ℚ × Option (List ℚ) :=
  match flux_err with
  | none =>
      let s := sort_by (fun p => p.1) (time.zip flux)
      (s.map (fun p => p.1), s.map (fun p => p.2), none)
  | some errs =>
      let s := sort_by (fun p => p.1.1) ((time.zip flux).zip errs)
      (s.map (fun p => p.1.1), s.map (fun p => p.1.2),
        some (s.map (fun p => p.2)))

/-- `np.linspace a b n` with endpoint (the grid construction of
lines 113-114). -/
def linspace (a b : ℚ) (n : ℕ) : List ℚ :=
  if n = 0 then []
  else if n = 1 then [a]
  else (List.range n).map fun i => a + (b - a) * i / ((n : ℚ) - 1)

/-- First index attaining the maximum of a rational list
(`np.nanargmax` on a NaN-free spectrum; 0 on the empty list, which is
guarded out). -/
def list_max (xs : List ℚ) : ℚ := xs.foldl max (xs.headD 0)

/-- First arg-max index (spec tie-break: first occurrence in grid order). -/
def argmax_first (xs : List ℚ) : ℕ := xs.indexOf (list_max xs)

/-- `np.mean` (0 on the empty list; guarded at every use). -/
def list_mean (xs : List ℚ) : ℚ := xs.sum / (xs.length : ℚ)

/-- Population variance, the square of `np.std`. -/
def list_variance (xs : List ℚ) : ℚ :=
  list_mean (xs.map fun x => (x - list_mean xs) ^ 2)

/-- The numeric settings consumed by `build_bls_features`
(`config.Settings`). -/
structure Settings where
  period_min : ℚ
  period_max : ℚ
  n_periods : ℕ
  dur_min_hours : ℚ
  dur_max_hours : ℚ
  auto_fetch_missing : Bool

/-- The output of the external BoxLeastSquares search for one invocation:
the parallel per-grid-point arrays of `bls.power(...)`, the
`compute_stats` fields the code reads (each optional, mirroring the
colname/dict presence tests of lines 130-146), and the
`bls.transit_mask(...)` fallback mask of line 152. -/
structure SearchOut where
  power : List ℚ
  period : List ℚ
  duration : List ℚ
  transit_time : List ℚ
  depth : List ℚ
  statsDepth : Option ℚ
  statsDepthSnr : Option ℚ
  statsMask : Option (List Bool)
  fallbackMask : List Bool

/-- The external periodic-search contract (astropy BoxLeastSquares),
a deterministic function of the conditioned time array, the normalized
flux, the normalized errors, and the two grids. -/
structure BLSEngine where
  run : List ℚ → List ℚ → Option (List ℚ) → List ℚ → List ℚ → SearchOut

/-- The derived diagnostic statistics of lines 119-205.  `sqrtFn` stands
for the real square root inside `np.std`. -/
structure BLSFeatures where
  period_days : ℚ
  duration_hours : ℚ
  depth_ppm : ℚ
  snr : ℚ
  t0_btjd : ℚ
  duty_cycle : ℚ
  n_transits : ℚ
  odd_even_depth_ratio : ℚ
  secondary_snr : ℚ
  in_vs_out_rms : ℚ
  rms_before : FVal
  rms_after : FVal
  data_fraction_kept : ℚ

/-- The feature-derivation stage of `build_bls_features` (lines 119-205),
applied to the conditioned arrays and the search output. -/
def derive_features (sqrtFn : ℚ → ℚ) (time_arr norm_flux : List ℚ)
    (fraction_kept : ℚ) (out : SearchOut) : BLSFeatures :=
  let best_idx := argmax_first out.power
  let best_period := out.period.getD best_idx 0
  let best_duration := out.duration.getD best_idx 0
  let best_t0 := out.transit_time.getD best_idx 0
  let best_power := out.power.getD best_idx 0
  let depth_value := out.statsDepth.getD (out.depth.getD best_idx 0)
  let depth_snr := out.statsDepthSnr.getD best_power
  let transit_mask := out.statsMask.getD out.fallbackMask
  let flux_in := mask_filter transit_mask norm_flux
  let flux_out := mask_filter (transit_mask.map (! ·)) norm_flux
  let out_std := if flux_out ≠ [] then sqrtFn (list_variance flux_out) else 0
  let in_std := if flux_in ≠ [] then sqrtFn (list_variance flux_in) else 0
  let in_vs_out_rms := if out_std ≠ 0 then in_std / out_std else 1
  let baseline_days :=
    if time_arr ≠ [] then time_arr.getLastD 0 - time_arr.headD 0 else 0
  let n_transits_raw := if best_period > 0 then baseline_days / best_period else 0
  let n_transits := max n_transits_raw 1
  let second_best_power :=
    if out.power.length > 1 then
      (sort_by id out.power).getD (out.power.length - 2) 0
    else 0
  let secondary_snr := if best_power ≠ 0 then second_best_power / best_power else 0
  let transit_numbers : List ℤ :=
    if best_period > 0 then
      time_arr.map fun t => ⌊(t - best_t0) / best_period + 1 / 1000000⌋
    else time_arr.map fun _ => 0
  let odd_mask := (transit_mask.zip transit_numbers).map fun p =>
    p.1 && decide (p.2 % 2 = 0)
  let even_mask := (transit_mask.zip transit_numbers).map fun p =>
    p.1 && decide (p.2 % 2 = 1)
  let odd_sel := mask_filter odd_mask norm_flux
  let even_sel := mask_filter even_mask norm_flux
  let odd_even_depth_ratio :=
    if odd_sel ≠ [] ∧ even_sel ≠ [] then
      let odd_depth := |list_mean odd_sel|
      let even_depth := |list_mean even_sel|
      if even_depth ≠ 0 then odd_depth / even_depth else 1
    else 1
  let before_sel := mask_filter (time_arr.map fun t => decide (t < best_t0)) norm_flux
  let after_sel := mask_filter (time_arr.map fun t => decide (t > best_t0)) norm_flux
  let rms_before : FVal :=
    if time_arr.any (fun t => decide (t < best_t0)) then
      .fin (sqrtFn (list_variance before_sel))
    else .nan
  let rms_after : FVal :=
    if time_arr.any (fun t => decide (t > best_t0)) then
      .fin (sqrtFn (list_variance after_sel))
    else .nan
  let duty_cycle := if best_period > 0 then best_duration / best_period else 0
  { period_days := best_period
    duration_hours := best_duration * 24
    depth_ppm := depth_value * 1000000
    snr := depth_snr
    t0_btjd := best_t0
    duty_cycle := duty_cycle
    n_transits := n_transits
    odd_even_depth_ratio := odd_even_depth_ratio
    secondary_snr := secondary_snr
    in_vs_out_rms := in_vs_out_rms
    rms_before := rms_before
    rms_after := rms_after
    data_fraction_kept := fraction_kept }

/-- The features dictionary of lines 191-210 in insertion order, with the
caller-supplied auxiliary meta keys appended when present. -/
def features_list (f : BLSFeatures) (meta : Option (List (String × ℚ))) :
    List (String × FVal) :=
  [("period_days", FVal.fin f.period_days),
   ("duration_hours", FVal.fin f.duration_hours),
   ("depth_ppm", FVal.fin f.depth_ppm),
   ("snr", FVal.fin f.snr),
   ("t0_btjd", FVal.fin f.t0_btjd),
   ("duty_cycle", FVal.fin f.duty_cycle),
   ("n_transits", FVal.fin f.n_transits),
   ("odd_even_depth_ratio", FVal.fin f.odd_even_depth_ratio),
   ("secondary_snr", FVal.fin f.secondary_snr),
   ("in_vs_out_rms", FVal.fin f.in_vs_out_rms),
   ("rms_before", f.rms_before),
   ("rms_after", f.rms_after),
   ("data_fraction_kept", FVal.fin f.data_fraction_kept)] ++
  (match meta with
   | none => []
   | some m => META_FEATURE_KEYS.filterMap fun k =>
       (m.lookup k).map fun v => (k, FVal.fin v))

/-- The five-key summary dictionary of lines 212-218. -/
def summary_of (f : BLSFeatures) : List (String × Option FVal) :=
  [("period_days", some (FVal.fin f.period_days)),
   ("duration_hours", some (FVal.fin f.duration_hours)),
   ("depth_ppm", some (FVal.fin f.depth_ppm)),
   ("snr", some (FVal.fin f.snr)),
   ("t0_btjd", some (FVal.fin f.t0_btjd))]

/-- Errors escaping `build_bls_features`: `InsufficientDataError` and the
`ValueError`s of lines 104 and 117. -/
inductive BLSError where
  | insufficientData (msg : String)
  | valueError (msg : String)
  deriving DecidableEq, Repr

/-- `bls.BLSResult`. -/
structure BLSRun where
  features : List (String × FVal)
  summary : List (String × Option FVal)
  warnings : List String
  deriving DecidableEq, Repr

/-- `bls.build_bls_features`: finite filter, sort, five-sigma clip, the
two sample-count guards, median normalization (the median of finite
rationals is always finite, so of the source's
`not np.isfinite(median_flux) or median_flux == 0` test only the zero
test has content here), the external search, and feature derivation. -/
def build_bls_features (settings : Settings) (engine : BLSEngine)
    (sqrtFn : ℚ → ℚ) (time flux : List FVal) (flux_err : Option (List FVal))
    (meta : Option (List (String × ℚ))) : Except BLSError BLSRun :=
  match finite_filter time flux flux_err with
  | (t1, f1, e1) =>
    if t1.length < MIN_SAMPLES then
      .error (.insufficientData "insufficient samples after removing non-finite values")
    else
      match sort_by_time t1 f1 e1 with
      | (t2, f2, e2) =>
        match five_sigma_clip t2 f2 e2 with
        | (t3, f3, e3, fraction_kept) =>
          if t3.length < MIN_SAMPLES then
            .error (.insufficientData "insufficient samples after clipping")
          else
            let warnings := if fraction_kept < 8 / 10 then ["aggressive_clipping"] else []
            let median_flux := median f3
            if median_flux = 0 then
              .error (.valueError "median flux is invalid for normalization")
            else
              let norm_flux := f3.map fun x => x / median_flux - 1
              let norm_flux_err := e3.map fun es => es.map (· / median_flux)
              let periods := linspace settings.period_min settings.period_max settings.n_periods
              let durations := (linspace settings.dur_min_hours settings.dur_max_hours 20).map (· / 24)
              let out := engine.run t3 norm_flux norm_flux_err periods durations
              if out.power.length = 0 then
                .error (.valueError "BLS did not return any power spectrum results")
              else
                let feats := derive_features sqrtFn t3 norm_flux fraction_kept out
                .ok { features := features_list feats meta
                      summary := summary_of feats
                      warnings := warnings }

/-!
## Artifact loading (`models/loader.py`)

The directory contents are modelled by `ModelDir`: which filenames exist,
the parsed JSON of each feature-name file, whether the xgboost import
succeeds, and whether `joblib.load` of a path yields a Booster instance.
The model/scaler/calibrator objects themselves are opaque, so the loaded
state records their presence.
-/

/-- `str.strip()` (no arguments): remove leading and trailing whitespace. -/
def py_strip (s : String) : String :=
  ((s.toList.dropWhile Char.isWhitespace).reverse.dropWhile
    Char.isWhitespace).reverse.asString

/-- `str.startswith`. -/
def str_starts (pfx s : String) : Bool :=
  decide (s.toList.take pfx.toList.length = pfx.toList)

/-- `str.lower` on ASCII artifact names. -/
def str_lower (s : String) : String := (s.toList.map Char.toLower).asString

/-- `pathlib.Path(name).stem`: the name up to its last dot, when that dot
is neither the first nor past the last character. -/
def path_stem (name : String) : String :=
  let cs := name.toList
  let idx := (List.range cs.length).foldl
    (fun acc i => if cs.getD i ' ' = '.' then some i else acc) none
  match idx with
  | some i => if 0 < i ∧ i < cs.length - 1 then (cs.take i).asString else name
  | none => name

/-- `pathlib.Path(name).suffix`: the final dot-extension, `""` when there
is none under the same rule as `path_stem`. -/
def path_ext (name : String) : String :=
  let cs := name.toList
  let idx := (List.range cs.length).foldl
    (fun acc i => if cs.getD i ' ' = '.' then some i else acc) none
  match idx with
  | some i => if 0 < i ∧ i < cs.length - 1 then (cs.drop i).asString else ""
  | none => ""

/-- `str.removeprefix`. -/
def remove_start (p s : String) : String :=
  if str_starts p s then (s.toList.drop p.toList.length).asString else s

/-- `suffix.split('.')[0]`. -/
def before_dot (s : String) : String :=
  (s.toList.takeWhile fun c => c ≠ '.').asString

/-- Errors raised by `loader.load_state`. -/
inductive LoadError where
  | fileNotFound (msg : String)
  | valueError (msg : String)
  | runtimeError (msg : String)
  | typeError (msg : String)
  deriving DecidableEq, Repr

/-- `loader._resolve_suffix`. -/
def resolve_suffix (latest pfx : String) : Except LoadError String :=
  let stem := path_stem latest
  if str_starts pfx stem then .ok (remove_start pfx stem)
  else .error (.valueError "Expected latest artifact to start with the mode marker")

/-- The parsed JSON content of a feature-name file, as the shapes
`loader._load_feature_names` distinguishes: an object (whose
`feature_names` entry, `[]` when absent, is recorded), a bare array, or
anything else. -/
inductive FeatureFile where
  | obj (names : List String)
  | arr (names : List String)
  | malformed

/-- `loader._load_feature_names`. -/
def parse_feature_names : FeatureFile → Except LoadError (List String)
  | .obj names => .ok names
  | .arr names => .ok names
  | .malformed => .error (.valueError "Unsupported feature names format")

/-- Observable contents of `settings.model_dir` during one
`loader.load_state` call. -/
structure ModelDir where
  /-- content of `latest.txt` when the file exists. -/
  latestTxt : Option String
  /-- filenames existing in the directory. -/
  files : List String
  /-- parsed JSON content of each (feature-name) file. -/
  featureFile : String → FeatureFile
  /-- whether `import_module('xgboost')` succeeds. -/
  xgbImportOk : Bool
  /-- whether `joblib.load` of this path yields an `xgboost.Booster`. -/
  joblibIsBooster : String → Bool

/-- The observable part of the state dictionary `loader.load_state`
returns (model/scaler/calibrator handles reduced to presence). -/
structure LoadedState where
  mode : Mode
  feature_names : List String
  hasScaler : Bool
  hasCalibrator : Bool
  hasXgb : Bool
  latest : String
  feature_names_version : String
  deriving DecidableEq, Repr

/-- The shared tail of `loader.load_state` (lines 88-107): feature-file
existence, parse, non-emptiness, and state assembly. -/
def load_state_tail (d : ModelDir) (mode : Mode) (latest : String)
    (feature_file_name : String) (hasScaler hasCalibrator hasXgb : Bool) :
    Except LoadError LoadedState :=
  if feature_file_name ∈ d.files then
    match parse_feature_names (d.featureFile feature_file_name) with
    | .error e => .error e
    | .ok names =>
      if names = [] then .error (.valueError "Loaded feature names list is empty")
      else
        .ok { mode := mode
              feature_names := names
              hasScaler := hasScaler
              hasCalibrator := hasCalibrator
              hasXgb := hasXgb
              latest := latest
              feature_names_version :=
                remove_start "feature_names_" (path_stem feature_file_name) }
  else .error (.fileNotFound "Feature names file missing")

/-- `loader.load_state`. -/
def load_state (d : ModelDir) : Except LoadError LoadedState :=
  match d.latestTxt with
  | none => .error (.fileNotFound "latest.txt not found")
  | some raw =>
    let latest := py_strip raw
    if latest = "" then .error (.valueError "latest.txt is empty")
    else if latest ∉ d.files then .error (.fileNotFound "Model artifact missing")
    else if str_starts "model_iso_" latest then
      match resolve_suffix latest "model_iso_" with
      | .error e => .error e
      | .ok s0 =>
        let sfx := before_dot s0
        load_state_tail d .one_class latest ("feature_names_" ++ sfx ++ ".json")
          (("scaler_" ++ sfx ++ ".pkl") ∈ d.files) false false
    else if str_starts "model_xgb_" latest then
      match resolve_suffix latest "model_xgb_" with
      | .error e => .error e
      | .ok s0 =>
        let sfx := before_dot s0
        if d.xgbImportOk = false then
          .error (.runtimeError "xgboost must be installed for supervised mode")
        else if str_lower (path_ext latest) ∈ [".json", ".ubj", ".bin"] ∨
            d.joblibIsBooster latest then
          load_state_tail d .supervised latest ("feature_names_" ++ sfx ++ ".json")
            (("scaler_" ++ sfx ++ ".pkl") ∈ d.files)
            (("calibrator_" ++ sfx ++ ".pkl") ∈ d.files) true
        else
          .error (.typeError "Loaded supervised model is not an XGBoost Booster instance")
    else .error (.valueError "Unsupported latest artifact name")

/-- The observable payload of `InferenceService.model_info`
(`infer.py` lines 61-72). -/
structure ModelInfo where
  mode : Mode
  latest : String
  feature_names_version : String
  feature_count : ℕ
  has_scaler : Bool
  has_calibrator : Bool
  is_probability : Bool
  deriving DecidableEq, Repr

/-- `InferenceService.model_info` as a projection of the loaded state. -/
def model_info (state : LoadedState) : ModelInfo :=
  { mode := state.mode
    latest := state.latest
    feature_names_version := state.feature_names_version
    feature_count := state.feature_names.length
    has_scaler := state.hasScaler
    has_calibrator := state.hasCalibrator
    is_probability := decide (state.mode = .supervised) }

/-!
## `predict_by_tic` and the HTTP boundary
(`infer.py` lines 74-131, `lc_store.py`, `main.py` lines 60-73)
-/

/-- The Python exception classes the boundary distinguishes. -/
inductive PyExc where
  | exceptionBase
  | runtimeError
  | fileNotFoundError
  | lightcurveNotFoundError
  | insufficientDataError
  | featureExtractionError
  deriving DecidableEq, Repr

/-- Declared parent class of each exception class
(`class LightcurveNotFoundError(FileNotFoundError)` at infer.py line 20,
`class FeatureExtractionError(RuntimeError)` at line 24,
`class InsufficientDataError(Exception)` at bls.py line 16; builtin
ancestry collapsed to `exceptionBase`). -/
def excParent : PyExc → Option PyExc
  | .lightcurveNotFoundError => some .fileNotFoundError
  | .featureExtractionError => some .runtimeError
  | .insufficientDataError => some .exceptionBase
  | .fileNotFoundError => some .exceptionBase
  | .runtimeError => some .exceptionBase
  | .exceptionBase => none

/-- `isinstance`-style subclass test (the hierarchy has depth at most 3,
so three parent steps suffice). -/
def isSubclass (c d : PyExc) : Bool :=
  c = d || excParent c = some d || (excParent c).bind excParent = some d ||
    (((excParent c).bind excParent).bind excParent) = some d

/-- Errors escaping `InferenceService.predict_by_tic`. -/
inductive PredictError where
  | lightcurveNotFound (msg : String)
  | insufficientData (msg : String)
  | featureExtraction (msg : String)
  | runtimeError (msg : String)
  deriving DecidableEq, Repr

/-- The exception class of each escaping error. -/
def PredictError.excClass : PredictError → PyExc
  | .lightcurveNotFound _ => .lightcurveNotFoundError
  | .insufficientData _ => .insufficientDataError
  | .featureExtraction _ => .featureExtractionError
  | .runtimeError _ => .runtimeError

/-- Observable contents of the light-curve store for one TIC during one
request: the parquet arrays when the file exists, the cached feature row
when one exists, and the arrays a successful MAST auto-fetch would leave
behind (`none` = the fetch raises). -/
structure LcEnv where
  lcData : Option (List FVal × List FVal × Option (List FVal))
  cachedFeatures : Option (List (String × FVal))
  fetchResult : Option (List FVal × List FVal × Option (List FVal))

/-- `InferenceService._summary_from_features` (infer.py lines 305-313). -/
def summary_from_features (features : List (String × FVal)) :
    List (String × Option FVal) :=
  [("period_days", some ((features.lookup "period_days").getD .nan)),
   ("duration_hours", some ((features.lookup "duration_hours").getD .nan)),
   ("depth_ppm", some ((features.lookup "depth_ppm").getD .nan)),
   ("snr", some ((features.lookup "snr").getD .nan)),
   ("t0_btjd", some ((features.lookup "t0_btjd").getD .nan))]

/-- `InferenceService._prepare_lightcurve` (infer.py lines 276-303):
empty payload on empty input, else at most 5000 points sampled at
`np.linspace(0, n-1, 5000, dtype=int)` indices. -/
def prepare_lightcurve (time flux : List FVal)
    (flux_err : Option (List FVal)) : List (String × List FVal) :=
  if time = [] ∨ flux = [] then [("time", []), ("flux", [])]
  else
    let n := time.length
    let idxs := (List.range 5000).map fun i => ((n - 1) * i) / 4999
    let pick : List FVal → List FVal := fun xs =>
      if n > 5000 then idxs.map (fun i => xs.getD i .nan) else xs
    [("time", pick time), ("flux", pick flux)] ++
      (match flux_err with
       | some es => if es ≠ [] then [("flux_err", pick es)] else []
       | none => [])

/-- The shared tail of `predict_by_tic` after the light curve has been
read (infer.py lines 93-131): consult the feature cache unless the curve
was auto-fetched, otherwise recompute (propagating `InsufficientData`,
wrapping any other extraction failure), then score.  The
`write_cached_features` side effect has no bearing on the response and is
not modelled. -/
def predict_after_read (settings : Settings) (env : LcEnv)
    (engine : BLSEngine) (sqrtFn : ℚ → ℚ) (state : ArtifactState)
    (tic_id : ℤ) (time flux : List FVal) (flux_err : Option (List FVal))
    (auto_fetch : Bool) : Except PredictError PredictResponse :=
  let cached := if auto_fetch then none else env.cachedFeatures
  let lc := prepare_lightcurve time flux flux_err
  let run : List (String × FVal) → List (String × Option FVal) →
      List String → Bool → Except PredictError PredictResponse :=
    fun features summary warnings cache_hit =>
      match score_run state features summary warnings (some tic_id)
          (some cache_hit) auto_fetch (some lc) with
      | .ok resp => .ok resp
      | .error (.runtimeError m) => .error (.runtimeError m)
  match cached with
  | some cf => run cf (summary_from_features cf) [] true
  | none =>
    match build_bls_features settings engine sqrtFn time flux flux_err none with
    | .error (.insufficientData m) => .error (.insufficientData m)
    | .error (.valueError m) => .error (.featureExtraction m)
    | .ok r => run r.features r.summary r.warnings false

/-- `InferenceService.predict_by_tic` (infer.py lines 74-131), given the
already-refreshed artifact state: read the parquet, on
`FileNotFoundError` either fail with `LightcurveNotFoundError` (auto-fetch
disabled) or fetch and re-read (any fetch failure again becoming
`LightcurveNotFoundError`), then hand off to `predict_after_read`. -/
def predict_by_tic (settings : Settings) (env : LcEnv) (engine : BLSEngine)
    (sqrtFn : ℚ → ℚ) (state : ArtifactState) (tic_id : ℤ) :
    Except PredictError PredictResponse :=
  match env.lcData with
  | some (t, f, e) =>
      predict_after_read settings env engine sqrtFn state tic_id t f e false
  | none =>
      if settings.auto_fetch_missing = false then
        .error (.lightcurveNotFound "Lightcurve parquet not found for TIC")
      else
        match env.fetchResult with
        | some (t, f, e) =>
            predict_after_read settings env engine sqrtFn state tic_id t f e true
        | none => .error (.lightcurveNotFound "auto fetch failed")

/-- Outcome at the HTTP boundary: a 200 payload, an `HTTPException`
status, or an exception the endpoint handler does not catch. -/
inductive HttpOutcome where
  | ok (resp : PredictResponse)
  | status (code : ℕ)
  | unhandled

/-- The `GET /predict/by_tic` endpoint (main.py lines 60-73): 404 for
`LightcurveNotFoundError`, 422 for `InsufficientDataError`, 500 for
`FeatureExtractionError`; anything else propagates uncaught.  (The
`tic_id >= 1` query validation happens before the handler and is outside
this model.) -/
def http_predict_by_tic (settings : Settings) (env : LcEnv)
    (engine : BLSEngine) (sqrtFn : ℚ → ℚ) (state : ArtifactState)
    (tic_id : ℤ) : HttpOutcome :=
  match predict_by_tic settings env engine sqrtFn state tic_id with
  | .ok resp => .ok resp
  | .error (.lightcurveNotFound _) => .status 404
  | .error (.insufficientData _) => .status 422
  | .error (.featureExtraction _) => .status 500
  | .error (.runtimeError _) => .unhandled

/-- The number of samples reaching the clipping stage of
`build_bls_features` (the finite samples of line 87). -/
def samples_before_clip (time flux : List FVal)
    (flux_err : Option (List FVal)) : ℕ :=
  (finite_filter time flux flux_err).1.length

/-- The number of samples surviving the clipping stage of
`build_bls_features` (line 97). -/
def samples_after_clip (time flux : List FVal)
    (flux_err : Option (List FVal)) : ℕ :=
  match finite_filter time flux flux_err with
  | (t1, f1, e1) =>
    match sort_by_time t1 f1 e1 with
    | (t2, f2, e2) => (five_sigma_clip t2 f2 e2).1.length

/-!
## Concrete instances exercised by the witnesses
-/

/-- A search output whose best period is negative. -/
def c6OutNeg : SearchOut :=
  { power := [1]
    period := [-1]
    duration := [1 / 10]
    transit_time := [0]
    depth := [1 / 100]
    statsDepth := none
    statsDepthSnr := none
    statsMask := none
    fallbackMask := [] }

/-- A search output whose best period is 2. -/
def c6OutPos : SearchOut :=
  { power := [1]
    period := [2]
    duration := [1 / 10]
    transit_time := [0]
    depth := [1 / 100]
    statsDepth := none
    statsDepthSnr := none
    statsMask := none
    fallbackMask := [] }

/-- A one-class artifact state with an identity-free concrete model. -/
def c1State : ArtifactState :=
  { mode := .one_class
    feature_names := ["x"]
    decisionFunction := fun _ => .fin 0
    boosterPredict := fun _ => .fin 0
    scaler := none
    calibrator := none
    xgbAvailable := false
    latest := "model_iso_v1.pkl"
    feature_names_version := "v1"
    latest_mtime := 0 }

/-- A feature series holding a NaN entry. -/
def c1Features : List (String × FVal) := [("x", FVal.nan)]

/-- A summary holding an infinite entry. -/
def c1Summary : List (String × Option FVal) := [("s", some FVal.inf)]

/-- The response `score_run` produces on `c1State`/`c1Features`/`c1Summary`. -/
def c1Resp : PredictResponse :=
  { tic_id := none
    mode := .one_class
    is_probability := false
    score := .fin (1 / 2)
    summary := [("s", none)]
    features := [("x", none)]
    warnings := []
    meta_cache_hit := none
    meta_auto_fetch := false
    lightcurve := none }

/-- A model directory whose pointer names an unsupervised artifact with a
scaler but no calibrator. -/
def c7Dir : ModelDir :=
  { latestTxt := some "model_iso_v2.pkl"
    files := ["model_iso_v2.pkl", "feature_names_v2.json", "scaler_v2.pkl"]
    featureFile := fun n =>
      if n = "feature_names_v2.json" then .arr ["f1"] else .malformed
    xgbImportOk := true
    joblibIsBooster := fun _ => false }

/-- The state `load_state` builds from `c7Dir`. -/
def c7Loaded : LoadedState :=
  { mode := .one_class
    feature_names := ["f1"]
    hasScaler := true
    hasCalibrator := false
    hasXgb := false
    latest := "model_iso_v2.pkl"
    feature_names_version := "v2" }

/-- A model directory whose pointer has an unsupported name prefix. -/
def c7BadDir : ModelDir :=
  { latestTxt := some "model_foo_v1.pkl"
    files := ["model_foo_v1.pkl", "feature_names_v1.json"]
    featureFile := fun _ => .arr ["f1"]
    xgbImportOk := true
    joblibIsBooster := fun _ => false }

/-- A cached artifact state recorded at pointer mtime 5. -/
def c2Cached : ArtifactState :=
  { mode := .one_class
    feature_names := ["x"]
    decisionFunction := fun _ => .fin 0
    boosterPredict := fun _ => .fin 0
    scaler := none
    calibrator := none
    xgbAvailable := false
    latest := "model_iso_v1.pkl"
    feature_names_version := "v1"
    latest_mtime := 5 }

/-- The state a reload would produce. -/
def c2Load : ArtifactState :=
  { mode := .one_class
    feature_names := ["x", "y"]
    decisionFunction := fun _ => .fin 0
    boosterPredict := fun _ => .fin 0
    scaler := none
    calibrator := none
    xgbAvailable := false
    latest := "model_iso_v2.pkl"
    feature_names_version := "v2"
    latest_mtime := 9 }

/-- A supervised artifact state with a calibrator. -/
def c5State : ArtifactState :=
  { mode := .supervised
    feature_names := ["a"]
    decisionFunction := fun _ => .fin 0
    boosterPredict := fun _ => .fin 2
    scaler := none
    calibrator := some fun _ => .fin (3 / 4)
    xgbAvailable := true
    latest := "model_xgb_v1.json"
    feature_names_version := "v1"
    latest_mtime := 0 }

/-- Settings with auto-fetch disabled (the defaults of `config.Settings`). -/
def c9Settings : Settings :=
  { period_min := 1 / 2
    period_max := 30
    n_periods := 5000
    dur_min_hours := 1 / 2
    dur_max_hours := 10
    auto_fetch_missing := false }

/-- A store with no light-curve file, no cache and no fetch result. -/
def c9Env : LcEnv :=
  { lcData := none
    cachedFeatures := none
    fetchResult := none }

/-- A trivial external search engine. -/
def c9Engine : BLSEngine :=
  { run := fun _ _ _ _ _ =>
      { power := []
        period := []
        duration := []
        transit_time := []
        depth := []
        statsDepth := none
        statsDepthSnr := none
        statsMask := none
        fallbackMask := [] } }

/-- A one-class artifact state for the TIC-miss scenario. -/
def c9State : ArtifactState :=
  { mode := .one_class
    feature_names := ["x"]
    decisionFunction := fun _ => .fin 0
    boosterPredict := fun _ => .fin 0
    scaler := none
    calibrator := none
    xgbAvailable := false
    latest := "model_iso_v1.pkl"
    feature_names_version := "v1"
    latest_mtime := 0 }

/-- Settings with auto-fetch enabled. -/
def c10Settings : Settings :=
  { period_min := 1 / 2
    period_max := 30
    n_periods := 5000
    dur_min_hours := 1 / 2
    dur_max_hours := 10
    auto_fetch_missing := true }

/-- 200 evenly spaced sample times. -/
def c10Time : List FVal := (List.range 200).map fun i => .fin i

/-- 200 constant unit flux samples. -/
def c10Flux : List FVal := (List.range 200).map fun _ => .fin 1

/-- A store whose light-curve file is missing but whose MAST fetch
succeeds with the 200-sample curve. -/
def c10Env : LcEnv :=
  { lcData := none
    cachedFeatures := none
    fetchResult := some (c10Time, c10Flux, none) }

/-- An external search engine returning a single grid point with period 2. -/
def c10Engine : BLSEngine :=
  { run := fun _ _ _ _ _ =>
      { power := [1]
        period := [2]
        duration := [1 / 10]
        transit_time := [0]
        depth := [1 / 100]
        statsDepth := none
        statsDepthSnr := none
        statsMask := none
        fallbackMask := [] } }

/-- A one-class artifact state for the auto-fetch scenario. -/
def c10State : ArtifactState :=
  { mode := .one_class
    feature_names := ["x"]
    decisionFunction := fun _ => .fin 0
    boosterPredict := fun _ => .fin 0
    scaler := none
    calibrator := none
    xgbAvailable := false
    latest := "model_iso_v1.pkl"
    feature_names_version := "v1"
    latest_mtime := 0 }

/-- A one-class artifact state for the determinism check. -/
def c8State : ArtifactState :=
  { mode := .one_class
    feature_names := ["a", "b"]
    decisionFunction := fun X => (X.headD (.fin 0)).add (.fin (1 / 4))
    boosterPredict := fun _ => .fin 0
    scaler := none
    calibrator := none
    xgbAvailable := false
    latest := "model_iso_v1.pkl"
    feature_names_version := "v1"
    latest_mtime := 0 }

/-!
# Theorems
-/

theorem mask_filter_map {α : Type} (p : α → Bool) (xs : List α) :
    mask_filter (xs.map p) xs = xs.filter p := by
  induction xs with
  | nil => rfl
  | cons x xs ih =>
    simp only [List.map_cons, mask_filter, List.zip_cons_cons, List.filterMap_cons] at *
    cases h : p x <;> simp [h, List.filter_cons, ih]

theorem count_true_map {α : Type} (p : α → Bool) (xs : List α) :
    (xs.map p).count true = (xs.filter p).length := by
  induction xs with
  | nil => rfl
  | cons x xs ih =>
    cases h : p x <;> simp [List.count_cons, h, List.filter_cons, ih]

/-- C4: in the SignalConditioner clipping step, a zero flux MAD removes no
point and reports kept fraction exactly 1.0; otherwise exactly the samples
with `|flux - median| > 5 * 1.4826 * MAD` are rejected and the kept
fraction is the number of kept samples divided by the input length. -/
theorem C4_five_sigma_clip_exact (time flux : List ℚ)
    (flux_err : Option (List ℚ)) :
    (mad flux = 0 →
      five_sigma_clip time flux flux_err = (time, flux, flux_err, 1))
    ∧ (mad flux ≠ 0 →
      (five_sigma_clip time flux flux_err).2.1 =
        flux.filter (fun x =>
          decide (|x - median flux| ≤ 5 * (14826 / 10000) * mad flux))
      ∧ (five_sigma_clip time flux flux_err).2.2.2 =
        (((five_sigma_clip time flux flux_err).2.1.length : ℚ) /
          (flux.length : ℚ))) := by
  constructor
  · intro h
    simp [five_sigma_clip, h]
  · intro h
    have h1 : (five_sigma_clip time flux flux_err).2.1 =
        flux.filter (fun x =>
          decide (|x - median flux| ≤ 5 * (14826 / 10000) * mad flux)) := by
      simp [five_sigma_clip, h, mask_filter_map]
    refine ⟨h1, ?_⟩
    rw [h1]
    simp [five_sigma_clip, h, count_true_map]

/-- C4 witness: a constant flux has zero MAD and passes through unclipped;
a flux list with one far outlier keeps exactly the close samples. -/
theorem C4_witness :
    (five_sigma_clip [0, 1, 2] [1, 1, 1] none = ([0, 1, 2], [1, 1, 1], none, 1))
    ∧ ((five_sigma_clip [0, 1, 2, 3, 4] [0, 1, 2, 3, 100] none).2.1 =
        [0, 1, 2, 3, 100].filter (fun x =>
          decide (|x - median [0, 1, 2, 3, 100]| ≤
            5 * (14826 / 10000) * mad [0, 1, 2, 3, 100]))
      ∧ (five_sigma_clip [0, 1, 2, 3, 4] [0, 1, 2, 3, 100] none).2.2.2 =
        (((five_sigma_clip [0, 1, 2, 3, 4] [0, 1, 2, 3, 100] none).2.1.length : ℚ) /
          (([0, 1, 2, 3, 100] : List ℚ).length : ℚ))) :=
  ⟨(C4_five_sigma_clip_exact [0, 1, 2] [1, 1, 1] none).1
      (by with_unfolding_all decide),
   (C4_five_sigma_clip_exact [0, 1, 2, 3, 4] [0, 1, 2, 3, 100] none).2
      (by with_unfolding_all decide)⟩

/-- C2: with the pointer file present, `refresh` performs a full load
exactly when forced, when nothing is cached, or when the pointer mtime
strictly exceeds the recorded one; otherwise it returns the cached state
unchanged. -/
theorem C2_refresh_policy (force : Bool) (cached : Option ArtifactState)
    (current_mtime : ℚ) (load_result : ArtifactState) :
    (refresh true force cached current_mtime load_result =
        .ok (true, load_result) ↔
      force = true ∨ cached = none ∨
        ∃ s, cached = some s ∧ current_mtime > s.latest_mtime)
    ∧ (∀ s, cached = some s → force = false →
        ¬ current_mtime > s.latest_mtime →
        refresh true force cached current_mtime load_result = .ok (false, s)) := by
  cases cached with
  | none =>
    cases force <;> simp [refresh, refresh_reloads]
  | some s =>
    cases force with
    | true => simp [refresh, refresh_reloads]
    | false =>
      by_cases h : current_mtime > s.latest_mtime <;>
        simp [refresh, refresh_reloads, h]

/-- C2 witness: a cached state with recorded mtime 5 and current mtime 3,
unforced, is returned unchanged with no reload. -/
theorem C2_witness :
    refresh true false (some c2Cached) 3 c2Load = .ok (false, c2Cached) :=
  (C2_refresh_policy false (some c2Cached) 3 c2Load).2 c2Cached rfl rfl
    (by with_unfolding_all decide)

/-- C8: two invocations of the scoring path with identical feature vector,
summary and artifact state return identical scores. -/
theorem C8_score_deterministic (state state' : ArtifactState)
    (features features' : List (String × FVal))
    (summary summary' : List (String × Option FVal))
    (warnings warnings' : List String) (tic tic' : Option Int)
    (cache cache' : Option Bool) (auto auto' : Bool)
    (lc lc' : Option (List (String × List FVal)))
    (h1 : state = state') (h2 : features = features') (h3 : summary = summary')
    (h4 : warnings = warnings') (h5 : tic = tic') (h6 : cache = cache')
    (h7 : auto = auto') (h8 : lc = lc') :
    (score_run state features summary warnings tic cache auto lc).map
        (fun r => r.score) =
      (score_run state' features' summary' warnings' tic' cache' auto' lc').map
        (fun r => r.score) := by
  subst h1 h2 h3 h4 h5 h6 h7 h8
  rfl

/-- C8 witness: the determinism equation at a concrete one-class state and
feature vector. -/
theorem C8_witness :
    (score_run c8State [("a", FVal.fin 1)] [] [] none none false none).map
        (fun r => r.score) =
      (score_run c8State [("a", FVal.fin 1)] [] [] none none false none).map
        (fun r => r.score) :=
  C8_score_deterministic c8State c8State [("a", FVal.fin 1)] [("a", FVal.fin 1)]
    [] [] [] [] none none none none false false none none
    rfl rfl rfl rfl rfl rfl rfl rfl

theorem score_run_ok_fields (state : ArtifactState)
    (features : List (String × FVal)) (summary : List (String × Option FVal))
    (warnings : List String) (tic : Option Int) (cache : Option Bool)
    (auto : Bool) (lc : Option (List (String × List FVal)))
    (resp : PredictResponse)
    (h : score_run state features summary warnings tic cache auto lc = .ok resp) :
    resp.summary = serialize_summary summary ∧
    resp.features = serialize_series features ∧
    resp.meta_cache_hit = cache ∧ resp.meta_auto_fetch = auto := by
  unfold score_run at h
  split at h
  · cases h
    exact ⟨rfl, rfl, rfl, rfl⟩
  · split at h
    · cases h
    · cases h
      exact ⟨rfl, rfl, rfl, rfl⟩

theorem mem_serialize_summary (l : List (String × Option FVal))
    (k : String) (v : FVal) (h : (k, some v) ∈ serialize_summary l) :
    v.isNan = false ∧ v.isInf = false := by
  simp only [serialize_summary, List.mem_map] at h
  obtain ⟨⟨k', w⟩, -, hw⟩ := h
  cases w with
  | none => simp at hw
  | some u =>
    by_cases hu : u.isNan || u.isInf
    · simp [hu] at hw
    · simp [hu] at hw
      obtain ⟨-, rfl⟩ := hw
      exact ⟨by simpa using (Bool.or_eq_false_iff.mp (by simpa using hu)).1,
             by simpa using (Bool.or_eq_false_iff.mp (by simpa using hu)).2⟩

theorem mem_serialize_series (l : List (String × FVal))
    (k : String) (v : FVal) (h : (k, some v) ∈ serialize_series l) :
    v.pdIsna = false := by
  simp only [serialize_series, List.mem_map] at h
  obtain ⟨⟨k', w⟩, -, hw⟩ := h
  by_cases hp : w.pdIsna
  · simp [hp] at hw
  · simp [hp] at hw
    obtain ⟨-, rfl⟩ := hw
    simpa using hp

theorem serialize_series_passthrough (l : List (String × FVal))
    (k : String) (v : FVal) (hmem : (k, v) ∈ l) (hv : v.pdIsna = false) :
    (k, some v) ∈ serialize_series l := by
  simp only [serialize_series, List.mem_map]
  exact ⟨(k, v), hmem, by simp [hv]⟩

/-- C5: in supervised mode with xgboost available, scoring succeeds as a
probability; without a calibrator the final score is the clip of the raw
boosted-tree prediction, and with a calibrator the raw score is replaced
by the calibrator's positive-class probability before clipping. -/
theorem C5_supervised_calibration (state : ArtifactState)
    (features : List (String × FVal)) (summary : List (String × Option FVal))
    (warnings : List String) (tic : Option Int) (cache : Option Bool)
    (auto : Bool) (lc : Option (List (String × List FVal)))
    (hmode : state.mode = .supervised) (hxgb : state.xgbAvailable = true) :
    ∃ resp, score_run state features summary warnings tic cache auto lc =
        .ok resp ∧
      resp.is_probability = true ∧
      (state.calibrator = none →
        resp.score = clip01 (state.boosterPredict
          (applyScaler state.scaler (reindexFeatures features state.feature_names)))) ∧
      (∀ c, state.calibrator = some c →
        resp.score = clip01 (c
          (applyScaler state.scaler (reindexFeatures features state.feature_names)))) := by
  cases hc : state.calibrator with
  | none =>
    have he : score_run state features summary warnings tic cache auto lc =
        .ok { tic_id := tic
              mode := state.mode
              is_probability := true
              score := clip01 (state.boosterPredict
                (applyScaler state.scaler (reindexFeatures features state.feature_names)))
              summary := serialize_summary summary
              features := serialize_series features
              warnings := warnings
              meta_cache_hit := cache
              meta_auto_fetch := auto
              lightcurve := lc } := by
      simp [score_run, hmode, hxgb, hc]
    exact ⟨_, he, rfl, fun _ => rfl, fun c hcc => Option.noConfusion hcc⟩
  | some c =>
    have he : score_run state features summary warnings tic cache auto lc =
        .ok { tic_id := tic
              mode := state.mode
              is_probability := true
              score := clip01 (c
                (applyScaler state.scaler (reindexFeatures features state.feature_names)))
              summary := serialize_summary summary
              features := serialize_series features
              warnings := warnings
              meta_cache_hit := cache
              meta_auto_fetch := auto
              lightcurve := lc } := by
      simp [score_run, hmode, hxgb, hc]
    exact ⟨_, he, rfl, fun hcc => Option.noConfusion hcc,
      fun c' hcc => by cases hcc; rfl⟩

/-- C5 witness: a concrete supervised state with a calibrator returning
3/4 scores through the calibrated path. -/
theorem C5_witness :
    ∃ resp, score_run c5State [("a", FVal.fin 1)] [] [] none none false none =
        .ok resp ∧
      resp.is_probability = true ∧
      (c5State.calibrator = none →
        resp.score = clip01 (c5State.boosterPredict
          (applyScaler c5State.scaler (reindexFeatures [("a", FVal.fin 1)] c5State.feature_names)))) ∧
      (∀ c, c5State.calibrator = some c →
        resp.score = clip01 (c
          (applyScaler c5State.scaler (reindexFeatures [("a", FVal.fin 1)] c5State.feature_names)))) :=
  C5_supervised_calibration c5State [("a", FVal.fin 1)] [] [] none none false
    none rfl rfl

/-- C1 counterexample: a feature series carrying +inf is serialized by the
scoring path with the raw infinity intact (`pd.isna` does not flag
infinities), so a non-finite number appears in the feature payload. -/
theorem C1_counterexample :
    ∃ resp, score_run c1State [("x", FVal.inf)] [] [] none none false none =
        .ok resp ∧
      ("x", some FVal.inf) ∈ resp.features ∧ FVal.inf.isFinite = false := by
  refine ⟨_, rfl, ?_, rfl⟩
  simp [serialize_series, FVal.pdIsna]

/-- C1 amended: in every response the scoring path produces, the summary
payload never carries a raw non-finite value (NaN and infinities become
the null sentinel), while in the feature payload exactly the NaN entries
become the null sentinel and every non-NaN value — infinities included —
passes through raw. -/
theorem C1_nonfinite_serialization (state : ArtifactState)
    (features : List (String × FVal)) (summary : List (String × Option FVal))
    (warnings : List String) (tic : Option Int) (cache : Option Bool)
    (auto : Bool) (lc : Option (List (String × List FVal)))
    (resp : PredictResponse)
    (h : score_run state features summary warnings tic cache auto lc = .ok resp) :
    (∀ k v, (k, some v) ∈ resp.summary → v.isNan = false ∧ v.isInf = false)
    ∧ (∀ k v, (k, some v) ∈ resp.features → v.pdIsna = false)
    ∧ (∀ k v, (k, v) ∈ features → v.pdIsna = false →
        (k, some v) ∈ resp.features) := by
  obtain ⟨hs, hf, -, -⟩ := score_run_ok_fields state features summary warnings
    tic cache auto lc resp h
  rw [hs, hf]
  exact ⟨fun k v hv => mem_serialize_summary summary k v hv,
    fun k v hv => mem_serialize_series features k v hv,
    fun k v hm hv => serialize_series_passthrough features k v hm hv⟩

/-- C1 witness: on a concrete run the NaN feature is nulled, the infinite
summary entry is nulled, and non-NaN features pass through. -/
theorem C1_witness :
    (∀ k v, (k, some v) ∈ c1Resp.summary → v.isNan = false ∧ v.isInf = false)
    ∧ (∀ k v, (k, some v) ∈ c1Resp.features → v.pdIsna = false)
    ∧ (∀ k v, (k, v) ∈ c1Features → v.pdIsna = false →
        (k, some v) ∈ c1Resp.features) :=
  C1_nonfinite_serialization c1State c1Features c1Summary [] none none false
    none c1Resp (by with_unfolding_all rfl)

/-- C3: feature extraction fails with `InsufficientData` — and with no
other error reported as that condition — exactly when fewer than 200
finite samples reach the clipping stage or fewer than 200 survive it; with
at least 200 samples through both stages this error is never produced. -/
theorem C3_insufficient_data_iff (settings : Settings) (engine : BLSEngine)
    (sqrtFn : ℚ → ℚ) (time flux : List FVal) (flux_err : Option (List FVal))
    (meta : Option (List (String × ℚ))) :
    (∃ m, build_bls_features settings engine sqrtFn time flux flux_err meta =
        .error (.insufficientData m)) ↔
      samples_before_clip time flux flux_err < MIN_SAMPLES ∨
      samples_after_clip time flux flux_err < MIN_SAMPLES := by
  unfold build_bls_features samples_before_clip samples_after_clip
  rcases hf : finite_filter time flux flux_err with ⟨t1, f1, e1⟩
  rcases hs : sort_by_time t1 f1 e1 with ⟨t2, f2, e2⟩
  rcases hc : five_sigma_clip t2 f2 e2 with ⟨t3, f3, e3, frac⟩
  simp only [hf, hs, hc]
  by_cases hb : t1.length < MIN_SAMPLES
  · simp [hb]
  · by_cases ha : t3.length < MIN_SAMPLES
    · simp [hb, ha]
    · by_cases hm : median f3 = 0
      · simp [hb, ha, hm]
      · by_cases hp : (engine.run t3 (f3.map fun x => x / median f3 - 1)
            (e3.map fun es => es.map (· / median f3))
            (linspace settings.period_min settings.period_max settings.n_periods)
            ((linspace settings.dur_min_hours settings.dur_max_hours 20).map
              (· / 24))).power.length = 0
        · simp [hb, ha, hm, hp]
        · simp [hb, ha, hm, hp]

/-- C6: for any conditioned sample and search result, a non-positive best
period yields `duty_cycle = 0` and `n_transits = 1` (no failure), and a
positive best period yields
`n_transits = max(baseline_span / period, 1)` with
`baseline_span = last_time - first_time`. -/
theorem C6_duty_cycle_transits (sqrtFn : ℚ → ℚ) (time_arr norm_flux : List ℚ)
    (fraction_kept : ℚ) (out : SearchOut) :
    (out.period.getD (argmax_first out.power) 0 ≤ 0 →
      (derive_features sqrtFn time_arr norm_flux fraction_kept out).duty_cycle = 0 ∧
      (derive_features sqrtFn time_arr norm_flux fraction_kept out).n_transits = 1)
    ∧ (out.period.getD (argmax_first out.power) 0 > 0 →
      (derive_features sqrtFn time_arr norm_flux fraction_kept out).n_transits =
        max ((time_arr.getLastD 0 - time_arr.headD 0) /
          out.period.getD (argmax_first out.power) 0) 1) := by
  constructor
  · intro h
    rw [List.getD_eq_getElem?_getD] at h
    have hn : ¬ 0 < (out.period[argmax_first out.power]?).getD 0 := not_lt.mpr h
    constructor <;> simp [derive_features, hn]
  · intro h
    rw [List.getD_eq_getElem?_getD] at h
    by_cases ht : time_arr = []
    · simp [derive_features, ht, h]
    · simp [derive_features, ht, h]

/-- C6 witness: with best period -1 the features degrade to
`duty_cycle = 0`, `n_transits = 1`; with best period 2 over baseline
`[0, 10]` the transit count is `max(10 / 2, 1)`. -/
theorem C6_witness :
    ((derive_features id [0, 10] [0, 0] 1 c6OutNeg).duty_cycle = 0 ∧
      (derive_features id [0, 10] [0, 0] 1 c6OutNeg).n_transits = 1)
    ∧ (derive_features id [0, 10] [0, 0] 1 c6OutPos).n_transits =
        max ((([0, 10] : List ℚ).getLastD 0 - ([0, 10] : List ℚ).headD 0) /
          c6OutPos.period.getD (argmax_first c6OutPos.power) 0) 1 :=
  ⟨(C6_duty_cycle_transits id [0, 10] [0, 0] 1 c6OutNeg).1
      (by with_unfolding_all decide),
   (C6_duty_cycle_transits id [0, 10] [0, 0] 1 c6OutPos).2
      (by with_unfolding_all decide)⟩

theorem load_state_tail_ok (d : ModelDir) (mode : Mode) (latest ffn : String)
    (sc cal xgb : Bool) (s : LoadedState)
    (h : load_state_tail d mode latest ffn sc cal xgb = .ok s) :
    s.mode = mode ∧ s.hasCalibrator = cal := by
  unfold load_state_tail at h
  split at h
  · split at h
    · cases h
    · split at h
      · cases h
      · cases h
        exact ⟨rfl, rfl⟩
  · cases h

theorem str_starts_iso_not_xgb (s : String)
    (h : str_starts "model_iso_" s = true) :
    str_starts "model_xgb_" s = false := by
  simp only [str_starts, decide_eq_true_eq] at h
  simp only [str_starts, decide_eq_false_iff_not]
  intro hx
  have hlen : ("model_iso_".toList).length = ("model_xgb_".toList).length := by
    decide
  rw [hlen] at h
  exact absurd (h.symm.trans hx) (by decide)

theorem str_starts_xgb_not_iso (s : String)
    (h : str_starts "model_xgb_" s = true) :
    str_starts "model_iso_" s = false := by
  simp only [str_starts, decide_eq_true_eq] at h
  simp only [str_starts, decide_eq_false_iff_not]
  intro hx
  have hlen : ("model_xgb_".toList).length = ("model_iso_".toList).length := by
    decide
  rw [hlen] at h
  exact absurd (h.symm.trans hx) (by decide)

theorem load_state_ok_cases (d : ModelDir) (s : LoadedState)
    (hs : load_state d = .ok s) :
    (str_starts "model_iso_" (py_strip (d.latestTxt.getD "")) = true ∧
      s.mode = .one_class ∧ s.hasCalibrator = false) ∨
    (str_starts "model_xgb_" (py_strip (d.latestTxt.getD "")) = true ∧
      s.mode = .supervised) := by
  rcases hraw : d.latestTxt with _ | raw
  · simp only [load_state, hraw] at hs
    cases hs
  · simp only [load_state, hraw] at hs
    simp only [Option.getD_some]
    split at hs
    · cases hs
    · split at hs
      · cases hs
      · split at hs
        · rename_i hiso
          split at hs
          · cases hs
          · obtain ⟨hm, hc⟩ := load_state_tail_ok _ _ _ _ _ _ _ _ hs
            exact Or.inl ⟨hiso, hm, hc⟩
        · split at hs
          · rename_i hxgb
            split at hs
            · cases hs
            · split at hs
              · cases hs
              · split at hs
                · obtain ⟨hm, -⟩ := load_state_tail_ok _ _ _ _ _ _ _ _ hs
                  exact Or.inr ⟨hxgb, hm⟩
                · cases hs
          · cases hs

/-- C7: the artifact mode is selected solely by the pointer filename
prefix — `model_iso_*` yields the unsupervised (one-class) mode, which
always reports `has_calibrator = false`; `model_xgb_*` yields the
supervised mode; any other prefix makes the load fail instead of
producing a state. -/
theorem C7_mode_selection (d : ModelDir) :
    (∀ s, load_state d = .ok s →
      ((s.mode = .one_class ↔
          str_starts "model_iso_" (py_strip (d.latestTxt.getD "")) = true) ∧
       (s.mode = .supervised ↔
          str_starts "model_xgb_" (py_strip (d.latestTxt.getD "")) = true)))
    ∧ (str_starts "model_iso_" (py_strip (d.latestTxt.getD "")) = true →
        ∀ s, load_state d = .ok s →
          s.hasCalibrator = false ∧ (model_info s).has_calibrator = false)
    ∧ (str_starts "model_iso_" (py_strip (d.latestTxt.getD "")) = false →
        str_starts "model_xgb_" (py_strip (d.latestTxt.getD "")) = false →
        ∀ s, load_state d ≠ .ok s) := by
  refine ⟨fun s hs => ?_, fun hiso s hs => ?_, fun hniso hnxgb s hs => ?_⟩
  · rcases load_state_ok_cases d s hs with ⟨hi, hm, -⟩ | ⟨hx, hm⟩
    · refine ⟨⟨fun _ => hi, fun _ => hm⟩, ⟨fun hmm => ?_, fun hxx => ?_⟩⟩
      · rw [hm] at hmm
        cases hmm
      · have hf := str_starts_iso_not_xgb _ hi
        rw [hf] at hxx
        cases hxx
    · refine ⟨⟨fun hmm => ?_, fun hii => ?_⟩, ⟨fun _ => hx, fun _ => hm⟩⟩
      · rw [hm] at hmm
        cases hmm
      · have hf := str_starts_xgb_not_iso _ hx
        rw [hf] at hii
        cases hii
  · rcases load_state_ok_cases d s hs with ⟨-, -, hc⟩ | ⟨hx, -⟩
    · exact ⟨hc, hc⟩
    · have hf := str_starts_xgb_not_iso _ hx
      rw [hf] at hiso
      cases hiso
  · rcases load_state_ok_cases d s hs with ⟨hi, -, -⟩ | ⟨hx, -⟩
    · rw [hniso] at hi
      cases hi
    · rw [hnxgb] at hx
      cases hx

/-- C7 witness: a concrete `model_iso_v2.pkl` pointer with scaler but no
calibrator loads as one-class with `has_calibrator = false`, and a
`model_foo_v1.pkl` pointer never loads. -/
theorem C7_witness :
    load_state c7Dir = .ok c7Loaded ∧
    (c7Loaded.hasCalibrator = false ∧
      (model_info c7Loaded).has_calibrator = false) ∧
    (∀ s, load_state c7BadDir ≠ .ok s) :=
  have hok : load_state c7Dir = .ok c7Loaded := by with_unfolding_all rfl
  ⟨hok,
   (C7_mode_selection c7Dir).2.1 (by with_unfolding_all decide) c7Loaded hok,
   (C7_mode_selection c7BadDir).2.2 (by with_unfolding_all decide)
     (by with_unfolding_all decide)⟩

/-- C9: when the light-curve file is missing and auto-fetch is disabled,
`predict_by_tic` fails with `LightcurveNotFoundError` — a subclass of
`FileNotFoundError` — without consulting the model (the outcome is the
same for every artifact state), and the HTTP boundary answers 404 exactly
for this error. -/
theorem C9_missing_lightcurve_404 (settings : Settings) (env : LcEnv)
    (engine : BLSEngine) (sqrtFn : ℚ → ℚ) (state : ArtifactState) (tic : ℤ)
    (hlc : env.lcData = none) (haf : settings.auto_fetch_missing = false) :
    (∃ m, predict_by_tic settings env engine sqrtFn state tic =
        .error (.lightcurveNotFound m))
    ∧ http_predict_by_tic settings env engine sqrtFn state tic = .status 404
    ∧ (∀ state', predict_by_tic settings env engine sqrtFn state tic =
        predict_by_tic settings env engine sqrtFn state' tic)
    ∧ isSubclass (PredictError.lightcurveNotFound "").excClass
        .fileNotFoundError = true
    ∧ (∀ (settings' : Settings) (env' : LcEnv) (state' : ArtifactState),
        http_predict_by_tic settings' env' engine sqrtFn state' tic =
            .status 404 ↔
          ∃ m, predict_by_tic settings' env' engine sqrtFn state' tic =
            .error (.lightcurveNotFound m)) := by
  refine ⟨⟨"Lightcurve parquet not found for TIC", ?_⟩, ?_, fun state' => ?_,
    by decide, fun settings' env' state' => ⟨?_, ?_⟩⟩
  · simp [predict_by_tic, hlc, haf]
  · simp [http_predict_by_tic, predict_by_tic, hlc, haf]
  · simp [predict_by_tic, hlc, haf]
  · intro h
    unfold http_predict_by_tic at h
    split at h
    · cases h
    · rename_i m heq
      exact ⟨m, heq⟩
    · simp at h
    · simp at h
    · cases h
  · rintro ⟨m, hm⟩
    simp [http_predict_by_tic, hm]

/-- C9 witness: a concrete TIC with no parquet and auto-fetch off is
answered 404, and the error class is a `FileNotFoundError` subclass. -/
theorem C9_witness :
    http_predict_by_tic c9Settings c9Env c9Engine id c9State 1 = .status 404 ∧
    isSubclass (PredictError.lightcurveNotFound "").excClass
      .fileNotFoundError = true :=
  ⟨(C9_missing_lightcurve_404 c9Settings c9Env c9Engine id c9State 1
      rfl rfl).2.1,
   (C9_missing_lightcurve_404 c9Settings c9Env c9Engine id c9State 1
      rfl rfl).2.2.2.1⟩

/-- C10: when the light curve is auto-fetched during the request, the
feature cache is never consulted (the response is independent of the
cached entry), features are recomputed from the fetched arrays, and the
response reports `cache_hit = false` and `auto_fetch = true`. -/
theorem C10_auto_fetch_bypasses_cache (settings : Settings) (env : LcEnv)
    (engine : BLSEngine) (sqrtFn : ℚ → ℚ) (state : ArtifactState) (tic : ℤ)
    (t f : List FVal) (e : Option (List FVal))
    (haf : settings.auto_fetch_missing = true) (hlc : env.lcData = none)
    (hfetch : env.fetchResult = some (t, f, e)) :
    (∀ cf, predict_by_tic settings { env with cachedFeatures := cf } engine
        sqrtFn state tic =
      predict_by_tic settings { env with cachedFeatures := none } engine
        sqrtFn state tic)
    ∧ (∀ r, build_bls_features settings engine sqrtFn t f e none = .ok r →
        ∀ resp, predict_by_tic settings env engine sqrtFn state tic = .ok resp →
          resp.meta_cache_hit = some false ∧ resp.meta_auto_fetch = true ∧
          resp.features = serialize_series r.features) := by
  constructor
  · intro cf
    simp [predict_by_tic, predict_after_read, hlc, haf, hfetch]
  · intro r hr resp hresp
    have hpr : predict_by_tic settings env engine sqrtFn state tic =
        predict_after_read settings env engine sqrtFn state tic t f e true := by
      simp [predict_by_tic, hlc, haf, hfetch]
    rw [hpr] at hresp
    have hpar : predict_after_read settings env engine sqrtFn state tic t f e
        true =
        (match score_run state r.features r.summary r.warnings (some tic)
            (some false) true (some (prepare_lightcurve t f e)) with
         | .ok resp0 => .ok resp0
         | .error (.runtimeError m) => .error (.runtimeError m)) := by
      simp [predict_after_read, hr]
    rw [hpar] at hresp
    rcases hsc : score_run state r.features r.summary r.warnings (some tic)
        (some false) true (some (prepare_lightcurve t f e)) with err | resp'
    · rw [hsc] at hresp
      cases err
      simp at hresp
    · rw [hsc] at hresp
      cases hresp
      obtain ⟨-, hfeat, hcache, hauto⟩ :=
        score_run_ok_fields _ _ _ _ _ _ _ _ _ hsc
      exact ⟨hcache, hauto, hfeat⟩

set_option maxRecDepth 400000 in
/-- C10 witness: with the parquet missing, auto-fetch enabled and a
200-sample fetched curve, the response has `cache_hit = false`,
`auto_fetch = true`, features recomputed from the fetched arrays, and is
unaffected by a stale cache entry. -/
theorem C10_witness :
    (predict_by_tic c10Settings
        { c10Env with cachedFeatures := some [("period_days", FVal.fin 3)] }
        c10Engine id c10State 1 =
      predict_by_tic c10Settings { c10Env with cachedFeatures := none }
        c10Engine id c10State 1)
    ∧ ∃ r resp,
        build_bls_features c10Settings c10Engine id c10Time c10Flux none none =
          .ok r ∧
        predict_by_tic c10Settings c10Env c10Engine id c10State 1 = .ok resp ∧
        resp.meta_cache_hit = some false ∧ resp.meta_auto_fetch = true ∧
        resp.features = serialize_series r.features := by
  have h := C10_auto_fetch_bypasses_cache c10Settings c10Env c10Engine id
    c10State 1 c10Time c10Flux none rfl rfl rfl
  refine ⟨h.1 _, ?_⟩
  obtain ⟨r, hr⟩ :
      ∃ r, build_bls_features c10Settings c10Engine id c10Time c10Flux
        none none = .ok r :=
    ⟨_, by with_unfolding_all rfl⟩
  obtain ⟨resp, hresp⟩ :
      ∃ resp, predict_by_tic c10Settings c10Env c10Engine id c10State 1 =
        .ok resp :=
    ⟨_, by with_unfolding_all rfl⟩
  obtain ⟨h1, h2, h3⟩ := h.2 r hr resp hresp
  exact ⟨r, resp, hr, hresp, h1, h2, h3⟩

end ExoplanetAI
